import Mathlib

/-!
Verification development for the espp `RtspSession` RTSP session handler
(`components/rtsp/include/rtsp_session.hpp`).

The C++ class is shallowly embedded as follows.

* Byte buffers and strings (`std::string`, `std::string_view`) are `List Char`.
* `size_t` values produced by `std::string::find` are `Nat`, with the C++
  `npos` sentinel and 32-bit wraparound (the target is a 32-bit MCU, so
  `size_t` is 32 bits) made explicit through `npos`, `add32` and `sub32`.
* `std::string::substr`, which throws `std::out_of_range` when the start
  position exceeds the length, returns `Option (List Char)` (`none` = throw).
* `std::stoi`, which throws `std::invalid_argument` when no digits can be
  parsed, returns `Option Int` (`none` = throw).
* The session object is the structure `RtspSession` holding exactly the
  mutable fields the handlers touch; each C++ member function becomes a pure
  function from the session (and the request buffer) to the new session, the
  list of byte strings handed to `TcpSocket::transmit` (in call order), and a
  `HandlerOutcome` (`ok` = returned true, `err` = returned false, `crash` =
  an exception escaped).  Transmission itself is abstracted as succeeding;
  the datagram sockets are abstracted as the list of datagrams handed to
  `UdpSocket::send`.
-/

namespace EsppRtsp

/-- `std::string::npos` truncated to 32-bit `size_t` (ESP32 target). -/
def npos : Nat := 4294967295

/-- 32-bit `size_t` addition (wraps like the C++ `pos + k`). -/
def add32 (a b : Nat) : Nat := (a + b) % 4294967296

/-- 32-bit `size_t` subtraction (wraps like the C++ `a - b`); callers always
pass `b < 2^32`. -/
def sub32 (a b : Nat) : Nat := (a + 4294967296 - b) % 4294967296

/-- Walker for `findCharFrom`: index of the first occurrence of `c` in `l`,
counting from absolute index `i`; `npos` when absent. -/
def findCharAux (l : List Char) (c : Char) (i : Nat) : Nat :=
  match l with
  | [] => npos
  | x :: xs => if x = c then i else findCharAux xs c (i + 1)

/-- `std::string::find(char, pos)`: first occurrence of `c` at index `≥ pos`,
`npos` when absent (also when `pos` is past the end). -/
def findCharFrom (l : List Char) (c : Char) (pos : Nat) : Nat :=
  findCharAux (l.drop pos) c pos

/-- Walker for `findSubFrom`: first absolute index `≥ i` at which `pat`
occurs, `npos` when absent. -/
def findSubAux (l pat : List Char) (i : Nat) : Nat :=
  match l with
  | [] => npos
  | x :: xs => if pat.isPrefixOf (x :: xs) then i else findSubAux xs pat (i + 1)

/-- `std::string::find(const char*, pos)` for a non-empty pattern: first
occurrence of `pat` at index `≥ pos`, `npos` when absent. -/
def findSubFrom (l pat : List Char) (pos : Nat) : Nat :=
  findSubAux (l.drop pos) pat pos

/-- `l` contains `pat` as a contiguous substring. -/
def hasSub (l pat : List Char) : Bool := findSubFrom l pat 0 ≠ npos

/-- Number of occurrences of `pat` in `l` (all start positions counted). -/
def countSub (l pat : List Char) : Nat :=
  match l with
  | [] => 0
  | x :: xs => (if pat.isPrefixOf (x :: xs) then 1 else 0) + countSub xs pat

/-- `std::string::substr(pos, count)`: `none` models the `std::out_of_range`
throw when `pos` exceeds the length; otherwise at most `count` characters
starting at `pos`. -/
def cppSubstr (l : List Char) (pos count : Nat) : Option (List Char) :=
  if l.length < pos then none else some ((l.drop pos).take count)

/-- C-locale `isspace`, as consulted by `std::stoi`. -/
def cppIsSpace (c : Char) : Bool :=
  c = ' ' ∨ c = '\t' ∨ c = '\n' ∨ c = '\x0b' ∨ c = '\x0c' ∨ c = '\r'

/-- ASCII decimal digit. -/
def isDigitChar (c : Char) : Bool := '0' ≤ c ∧ c ≤ '9'

/-- Accumulate the value of a digit string. -/
def digitsVal (l : List Char) (acc : Nat) : Nat :=
  match l with
  | [] => acc
  | c :: cs => digitsVal cs (acc * 10 + (c.toNat - 48))

/-- Digit run at the head of `l`, after the optional sign: `none` models the
`std::invalid_argument` throw when no digit is present. -/
def stoiDigits (l : List Char) (sign : Int) : Option Int :=
  match l.takeWhile isDigitChar with
  | [] => none
  | ds => some (sign * (digitsVal ds 0 : Int))

/-- `std::stoi` on the given characters: skips C-locale whitespace, consumes
an optional sign and then a non-empty digit run (further characters are
ignored, as in C++); `none` models the `std::invalid_argument` throw.
`int` overflow (`std::out_of_range`) is not modelled; every value in this
development is tiny. -/
def stoi (l : List Char) : Option Int :=
  match l.dropWhile cppIsSpace with
  | '-' :: rest => stoiDigits rest (-1)
  | '+' :: rest => stoiDigits rest 1
  | rest => stoiDigits rest 1

/-- `std::to_string` on an unsigned value. -/
def natToChars (n : Nat) : List Char := Nat.toDigits 10 n

/-- `std::to_string` on an `int`. -/
def intToChars (i : Int) : List Char :=
  if i < 0 then '-' :: natToChars i.natAbs else natToChars i.natAbs

/-- The C++ `(size_t)` cast applied to an `int` (32-bit wraparound). -/
def toSize (i : Int) : Nat := (i % 4294967296).toNat

/-- The mutable state of an `RtspSession` object: `session_id_`,
`server_address_`, `rtsp_path_`, `client_address_`, the two client ports
recorded by SETUP, and the `closed_` / `session_active_` flags. -/
structure RtspSession where
  session_id : Nat
  server_address : List Char
  rtsp_path : List Char
  client_address : List Char
  client_rtp_port : Int
  client_rtcp_port : Int
  closed : Bool
  session_active : Bool
deriving DecidableEq

/-- `get_session_id()`. -/
def get_session_id (s : RtspSession) : Nat := s.session_id

/-- `is_closed()`. -/
def is_closed (s : RtspSession) : Bool := s.closed

/-- `is_active()`. -/
def is_active (s : RtspSession) : Bool := s.session_active

/-- `play()`: sets `session_active_ = true` (and nothing else). -/
def play (s : RtspSession) : RtspSession := { s with session_active := true }

/-- `pause()`: sets `session_active_ = false` (and nothing else). -/
def pause (s : RtspSession) : RtspSession := { s with session_active := false }

/-- `teardown()`: sets `session_active_ = false` and `closed_ = true`. -/
def teardown (s : RtspSession) : RtspSession :=
  { s with session_active := false, closed := true }

/-- A UDP datagram handed to `UdpSocket::send`: destination info and payload. -/
structure Datagram where
  ip_address : List Char
  port : Nat
  payload : List Char
deriving DecidableEq

/-- `send_rtp_packet(packet)`: the datagrams handed to `rtp_socket_.send`
during the call.  The C++ body sends the packet to
`(client_address_, (size_t)client_rtp_port_)` unconditionally. -/
def send_rtp_packet (s : RtspSession) (packet : List Char) : List Datagram :=
  [⟨s.client_address, toSize s.client_rtp_port, packet⟩]

/-- `send_rtcp_packet(packet)`: same via `rtcp_socket_` to
`(client_address_, (size_t)client_rtcp_port_)`, also unconditional. -/
def send_rtcp_packet (s : RtspSession) (packet : List Char) : List Datagram :=
  [⟨s.client_address, toSize s.client_rtcp_port, packet⟩]

/-- `send_response(code, message, sequence_number, headers, body)`: the byte
string handed to `control_socket_->transmit`, built by the same sequence of
appends as the C++ (status line; `CSeq` unless the sequence number is the
`-1` sentinel; the header block unless empty; then either
`Content-Length` + blank line + body, or a lone blank line). -/
def send_response (code : Int) (message : List Char) (sequence_number : Int)
    (headers body : List Char) : List Char :=
  let r1 := ("RTSP/1.0 ".data) ++ intToChars code ++ (" ".data) ++ message ++ ("\r\n".data)
  let r2 := if sequence_number = -1 then r1
    else r1 ++ (("CSeq: ".data) ++ intToChars sequence_number ++ ("\r\n".data))
  let r3 := if headers = [] then r2 else r2 ++ headers
  if body = [] then r3 ++ ("\r\n".data)
  else ((r3 ++ (("Content-Length: ".data) ++ natToChars body.length ++ ("\r\n".data)))
        ++ ("\r\n".data)) ++ body

/-- Result of `parse_rtsp_command_sequence`: `ok n` = returned true with the
parsed value, `fail` = returned false, `crash` = `std::stoi` threw. -/
inductive CseqResult where
  | ok (n : Int)
  | fail
  | crash
deriving DecidableEq

/-- `parse_rtsp_command_sequence(request, cseq)`: locates the literal
`"CSeq: "`, reads to the next `CR`, rejects an empty value, then calls
`std::stoi` on it. -/
def parse_rtsp_command_sequence (request : List Char) : CseqResult :=
  let cseq_index := findSubFrom request ("CSeq: ".data) 0
  if cseq_index = npos then .fail
  else
    let cseq_end_index := findCharFrom request '\r' cseq_index
    if cseq_end_index = npos then .fail
    else
      match cppSubstr request (add32 cseq_index 6) (sub32 (sub32 cseq_end_index cseq_index) 6) with
      | none => .crash
      | some cseq_str =>
        if cseq_str = [] then .fail
        else
          match stoi cseq_str with
          | none => .crash
          | some n => .ok n

/-- `parse_rtsp_path(request)`:
`request.substr(find(' ') + 1, find(' ', find(' ') + 1) - find(' ') - 1)`,
with the C++ `size_t` wraparound kept explicit. -/
def parse_rtsp_path (request : List Char) : Option (List Char) :=
  cppSubstr request (add32 (findCharFrom request ' ' 0) 1)
    (sub32 (sub32 (findCharFrom request ' ' (add32 (findCharFrom request ' ' 0) 1))
      (findCharFrom request ' ' 0)) 1)

/-- Result of `parse_rtsp_setup_request`: `parsed` = returned true with both
ports, `failed` = returned false without transmitting, `rejectedTcp` =
transmitted the 461 response and returned false, `crash` = `std::substr` or
`std::stoi` threw. -/
inductive SetupResult where
  | parsed (rtp rtcp : Int)
  | failed
  | rejectedTcp
  | crash
deriving DecidableEq

/-- `parse_rtsp_setup_request(request, rtsp_path, client_rtp_port,
client_rtcp_port)`: path check, `"Transport: "` header extraction up to `CR`,
`"RTP/AVP/TCP"` rejection, then the `client_port=N-M` extraction.  Note that
the C++ searches `client_port=` in the whole request and, when a search
fails, keeps computing with `npos`, which wraps under `size_t` arithmetic:
that wraparound is preserved here via `add32`/`sub32`. -/
def parse_rtsp_setup_request (request : List Char) : SetupResult :=
  match parse_rtsp_path request with
  | none => .crash
  | some rtsp_path =>
    if rtsp_path = [] then .failed
    else
      let transport_index := findSubFrom request ("Transport: ".data) 0
      if transport_index = npos then .failed
      else
        let transport_end_index := findCharFrom request '\r' transport_index
        if transport_end_index = npos then .failed
        else
          match cppSubstr request (add32 transport_index 11)
              (sub32 (sub32 transport_end_index transport_index) 11) with
          | none => .crash
          | some transport =>
            if transport = [] then .failed
            else if findSubFrom transport ("RTP/AVP/TCP".data) 0 ≠ npos then .rejectedTcp
            else
              let client_port_index := findSubFrom request ("client_port=".data) 0
              let dash_index := findCharFrom request '-' client_port_index
              match cppSubstr request (add32 client_port_index 12)
                  (sub32 (sub32 dash_index client_port_index) 12) with
              | none => .crash
              | some rtp_port =>
                if rtp_port = [] then .failed
                else
                  match cppSubstr request (add32 dash_index 1)
                      (sub32 (sub32 (findCharFrom request '\r' client_port_index) dash_index) 1) with
                  | none => .crash
                  | some rtcp_port =>
                    if rtcp_port = [] then .failed
                    else
                      match stoi rtp_port, stoi rtcp_port with
                      | some rtp, some rtcp => .parsed rtp rtcp
                      | _, _ => .crash

/-- How a request handler finished: `ok` = returned true, `err` = returned
false, `crash` = an exception escaped. -/
inductive HandlerOutcome where
  | ok
  | err
  | crash
deriving DecidableEq

/-- Observable effect of one handler call: the session afterwards, the byte
strings handed to `control_socket_->transmit` in order, and the outcome. -/
structure HResult where
  session : RtspSession
  outputs : List (List Char)
  outcome : HandlerOutcome
deriving DecidableEq

/-- `handle_rtsp_invalid_request(request)`: 400 Bad Request, echoing the
CSeq only when it parses. -/
def handle_rtsp_invalid_request (s : RtspSession) (request : List Char) : HResult :=
  match parse_rtsp_command_sequence request with
  | .crash => ⟨s, [], .crash⟩
  | .fail => ⟨s, [send_response 400 ("Bad Request".data) (-1) [] []], .ok⟩
  | .ok n => ⟨s, [send_response 400 ("Bad Request".data) n [] []], .ok⟩

/-- `handle_rtsp_options(request)`. -/
def handle_rtsp_options (s : RtspSession) (request : List Char) : HResult :=
  match parse_rtsp_command_sequence request with
  | .crash => ⟨s, [], .crash⟩
  | .fail => handle_rtsp_invalid_request s request
  | .ok n =>
    ⟨s, [send_response 200 ("OK".data) n
      ("Public: DESCRIBE, SETUP, TEARDOWN, PLAY, PAUSE\r\n".data) []], .ok⟩

/-- The `rtsp_path` local of `handle_rtsp_describe`:
`"rtsp://" + server_address_ + "/" + rtsp_path_`. -/
def rtsp_url (s : RtspSession) : List Char :=
  ("rtsp://".data) ++ s.server_address ++ ("/".data) ++ s.rtsp_path

/-- The `body` local of `handle_rtsp_describe`: the SDP document, with the
same literal segments and in the same order as the C++ concatenation. -/
def sdp_body (s : RtspSession) : List Char :=
  ("v=0\r\n".data) ++ ("o=- ".data) ++ natToChars s.session_id
  ++ (" 1 IN IP4 ".data) ++ s.server_address ++ ("\r\n".data)
  ++ ("s=MJPEG Stream\r\n".data)
  ++ ("i=MJPEG Stream\r\n".data)
  ++ ("t=0 0\r\n".data)
  ++ ("a=control:".data) ++ rtsp_url s ++ ("\r\n".data)
  ++ ("a=mimetype:string;\"video/x-motion-jpeg\"\r\n".data)
  ++ ("m=video 0 RTP/AVP 26\r\n".data)
  ++ ("c=IN IP4 0.0.0.0\r\n".data)
  ++ ("b=AS:256\r\n".data)
  ++ ("a=control:".data) ++ rtsp_url s ++ ("\r\n".data)
  ++ ("a=udp-only\r\n".data)

/-- The `headers` local of `handle_rtsp_describe`. -/
def describe_headers (s : RtspSession) : List Char :=
  ("Content-Type: application/sdp\r\n".data) ++ ("Content-Base: ".data)
  ++ rtsp_url s ++ ("\r\n".data)

/-- `handle_rtsp_describe(request)`. -/
def handle_rtsp_describe (s : RtspSession) (request : List Char) : HResult :=
  match parse_rtsp_command_sequence request with
  | .crash => ⟨s, [], .crash⟩
  | .fail => handle_rtsp_invalid_request s request
  | .ok n =>
    ⟨s, [send_response 200 ("OK".data) n (describe_headers s) (sdp_body s)], .ok⟩

/-- `handle_rtsp_setup(request)`: on a successful transport parse and CSeq
parse it records the client ports and answers 200 with `Session` and the
echoed `Transport`; a `rejectedTcp` parse has already transmitted the 461. -/
def handle_rtsp_setup (s : RtspSession) (request : List Char) : HResult :=
  match parse_rtsp_setup_request request with
  | .crash => ⟨s, [], .crash⟩
  | .failed => ⟨s, [], .err⟩
  | .rejectedTcp =>
    ⟨s, [send_response 461 ("Unsupported Transport".data) (-1) [] []], .err⟩
  | .parsed rtp rtcp =>
    match parse_rtsp_command_sequence request with
    | .crash => ⟨s, [], .crash⟩
    | .fail => handle_rtsp_invalid_request s request
    | .ok n =>
      ⟨{ s with client_rtp_port := rtp, client_rtcp_port := rtcp },
       [send_response 200 ("OK".data) n
         (("Session: ".data) ++ natToChars s.session_id ++ ("\r\n".data)
          ++ ("Transport: RTP/AVP;unicast;client_port=".data) ++ intToChars rtp
          ++ ("-".data) ++ intToChars rtcp ++ ("\r\n".data)) []], .ok⟩

/-- `handle_rtsp_play(request)`: calls `play()` before transmitting. -/
def handle_rtsp_play (s : RtspSession) (request : List Char) : HResult :=
  match parse_rtsp_command_sequence request with
  | .crash => ⟨s, [], .crash⟩
  | .fail => handle_rtsp_invalid_request s request
  | .ok n =>
    ⟨play s, [send_response 200 ("OK".data) n
      (("Session: ".data) ++ natToChars s.session_id ++ ("\r\n".data)
       ++ ("Range: npt=0.000-\r\n".data)) []], .ok⟩

/-- `handle_rtsp_pause(request)`: calls `pause()` before transmitting. -/
def handle_rtsp_pause (s : RtspSession) (request : List Char) : HResult :=
  match parse_rtsp_command_sequence request with
  | .crash => ⟨s, [], .crash⟩
  | .fail => handle_rtsp_invalid_request s request
  | .ok n =>
    ⟨pause s, [send_response 200 ("OK".data) n
      (("Session: ".data) ++ natToChars s.session_id ++ ("\r\n".data)) []], .ok⟩

/-- `handle_rtsp_teardown(request)`: calls `teardown()` before transmitting. -/
def handle_rtsp_teardown (s : RtspSession) (request : List Char) : HResult :=
  match parse_rtsp_command_sequence request with
  | .crash => ⟨s, [], .crash⟩
  | .fail => handle_rtsp_invalid_request s request
  | .ok n =>
    ⟨teardown s, [send_response 200 ("OK".data) n
      (("Session: ".data) ++ natToChars s.session_id ++ ("\r\n".data)) []], .ok⟩

/-- `handle_rtsp_request(request)`: splits the request line at the first two
spaces and the first `CR`, answers through `handle_rtsp_invalid_request` when
any is missing, otherwise dispatches on the method with the body after the
first `CR LF`.  (`request.substr(end_of_line_index + 2)` throws when the `CR`
is the final character, modelled by the `none` branch.) -/
def handle_rtsp_request (s : RtspSession) (request : List Char) : HResult :=
  let first_space_index := findCharFrom request ' ' 0
  let second_space_index := findCharFrom request ' ' (add32 first_space_index 1)
  let end_of_line_index := findCharFrom request '\r' 0
  if first_space_index = npos ∨ second_space_index = npos ∨ end_of_line_index = npos then
    handle_rtsp_invalid_request s request
  else
    let method := request.take first_space_index
    match cppSubstr request (add32 end_of_line_index 2) npos with
    | none => ⟨s, [], .crash⟩
    | some request_body =>
      if method = ("OPTIONS".data) then handle_rtsp_options s request_body
      else if method = ("DESCRIBE".data) then handle_rtsp_describe s request_body
      else if method = ("SETUP".data) then handle_rtsp_setup s request_body
      else if method = ("PLAY".data) then handle_rtsp_play s request_body
      else if method = ("PAUSE".data) then handle_rtsp_pause s request_body
      else if method = ("TEARDOWN".data) then handle_rtsp_teardown s request_body
      else handle_rtsp_invalid_request s request_body

/-- Environment of one `control_task_fn` iteration: whether
`control_socket_` is non-null, whether it reports connected, and the bytes a
successful `receive` yields (`none` = receive returned false). -/
structure ControlInput where
  socket_valid : Bool
  socket_connected : Bool
  recv : Option (List Char)
deriving DecidableEq

/-- Effect of one `control_task_fn` iteration: session afterwards, transmitted
responses, the returned stop flag, and whether handling crashed. -/
structure StepResult where
  session : RtspSession
  outputs : List (List Char)
  stop : Bool
  crashed : Bool
deriving DecidableEq

/-- `control_task_fn`: stop at once when `closed_`; tear down and stop when
the control socket is null or disconnected; otherwise handle one received
request (a failed receive just keeps the loop running). -/
def control_task_fn (s : RtspSession) (inp : ControlInput) : StepResult :=
  if s.closed then ⟨s, [], true, false⟩
  else if inp.socket_valid = false then ⟨teardown s, [], true, false⟩
  else if inp.socket_connected = false then ⟨teardown s, [], true, false⟩
  else
    match inp.recv with
    | some buffer =>
      let r := handle_rtsp_request s buffer
      ⟨r.session, r.outputs, false, match r.outcome with | .crash => true | _ => false⟩
    | none => ⟨s, [], false, false⟩

/-- Concrete session fixture used by witnesses and counterexamples. -/
def fix1 : RtspSession :=
  { session_id := 1234, server_address := ("10.0.0.1".data),
    rtsp_path := ("mjpeg/1".data), client_address := ("10.0.0.2".data),
    client_rtp_port := 0, client_rtcp_port := 0,
    closed := false, session_active := false }

/-- `fix1` after a completed SETUP for ports 5000-5001. -/
def fix2 : RtspSession := { fix1 with client_rtp_port := 5000, client_rtcp_port := 5001 }

/-- A closed (torn-down) session fixture. -/
def fixClosed : RtspSession := { fix1 with closed := true }

/-! ### Helper lemmas -/

/-- The four conditional appends of `send_response` flatten to a single
concatenation. -/
theorem send_response_flat (code : Int) (message : List Char) (n : Int)
    (headers body : List Char) :
    send_response code message n headers body =
      ("RTSP/1.0 ".data) ++ intToChars code ++ (" ".data) ++ message ++ ("\r\n".data)
      ++ (if n = -1 then [] else ("CSeq: ".data) ++ intToChars n ++ ("\r\n".data))
      ++ headers
      ++ (if body = [] then ("\r\n".data)
          else ("Content-Length: ".data) ++ natToChars body.length ++ ("\r\n".data)
               ++ ("\r\n".data) ++ body) := by
  unfold send_response
  by_cases hn : n = -1 <;> by_cases hh : headers = [] <;> by_cases hb : body = [] <;>
    simp [hn, hh, hb, List.append_assoc]

/-- A character that occurs nowhere in the list is never found. -/
theorem findCharAux_of_not_mem (l : List Char) (c : Char) (i : Nat)
    (h : c ∉ l) : findCharAux l c i = npos := by
  induction l generalizing i with
  | nil => rfl
  | cons x xs ih =>
    have hx : ¬ x = c := fun hxc => h (hxc ▸ List.mem_cons_self x xs)
    have hxs : c ∉ xs := fun hm => h (List.mem_cons_of_mem x hm)
    simp only [findCharAux, if_neg hx]
    exact ih (i + 1) hxs

/-- A character that occurs in the list is found before the end. -/
theorem findCharAux_lt (l : List Char) (c : Char) (i : Nat)
    (h : c ∈ l) : findCharAux l c i < i + l.length := by
  induction l generalizing i with
  | nil => cases h
  | cons x xs ih =>
    by_cases hx : x = c
    · simp only [findCharAux, if_pos hx, List.length_cons]
      omega
    · simp only [findCharAux, if_neg hx, List.length_cons]
      have hxs : c ∈ xs := by
        cases h with
        | head => exact absurd rfl hx
        | tail _ hm => exact hm
      have h2 := ih (i + 1) hxs
      omega

/-- `find` from any position misses a character absent from the list. -/
theorem findCharFrom_npos_of_not_mem (l : List Char) (c : Char) (pos : Nat)
    (h : c ∉ l) : findCharFrom l c pos = npos :=
  findCharAux_of_not_mem _ _ _ (fun hm => h (List.drop_subset _ _ hm))

/-- In a receive-bounded buffer, `find('\r') = npos` means no `CR` at all. -/
theorem no_cr_of_find_npos (l : List Char) (hlen : l.length ≤ 1024)
    (h : findCharFrom l '\r' 0 = npos) : '\r' ∉ l := by
  intro hm
  have h2 : findCharAux l '\r' 0 < 0 + l.length := findCharAux_lt l '\r' 0 hm
  have h3 : findCharFrom l '\r' 0 = findCharAux l '\r' 0 := by
    simp [findCharFrom]
  rw [h3] at h
  rw [h] at h2
  simp only [npos] at h2
  omega

/-- The 400 response without CSeq, evaluated. -/
theorem resp400_eval :
    send_response 400 (("Bad Request".data)) (-1) [] [] =
      ("RTSP/1.0 400 Bad Request\r\n\r\n".data) := by decide

/-- The 461 response, evaluated. -/
theorem resp461_eval :
    send_response 461 (("Unsupported Transport".data)) (-1) [] [] =
      ("RTSP/1.0 461 Unsupported Transport\r\n\r\n".data) := by decide

/-- The CSeq of the fixed PLAY body used below. -/
theorem cseq_req_play :
    parse_rtsp_command_sequence ("CSeq: 4\r\n\r\n".data) = CseqResult.ok 4 := by decide

/-! ### Claims -/

/-- C3: `send_response` emits exactly the status line, then `CSeq: n` when a
sequence number other than the `-1` sentinel is supplied, then the caller's
header block, then `Content-Length` + blank line + body for a non-empty body
and a lone blank line otherwise; and an OPTIONS request with CSeq 1 yields
exactly the quoted wire string. -/
theorem C3_send_response_format :
    (∀ (code : Int) (message : List Char) (n : Int) (headers body : List Char),
      send_response code message n headers body =
        ("RTSP/1.0 ".data) ++ intToChars code ++ (" ".data) ++ message ++ ("\r\n".data)
        ++ (if n = -1 then [] else ("CSeq: ".data) ++ intToChars n ++ ("\r\n".data))
        ++ headers
        ++ (if body = [] then ("\r\n".data)
            else ("Content-Length: ".data) ++ natToChars body.length ++ ("\r\n".data)
                 ++ ("\r\n".data) ++ body))
    ∧ handle_rtsp_request fix1
        ("OPTIONS rtsp://10.0.0.1/mjpeg/1 RTSP/1.0\r\nCSeq: 1\r\n\r\n".data) =
      ⟨fix1,
       [("RTSP/1.0 200 OK\r\nCSeq: 1\r\nPublic: DESCRIBE, SETUP, TEARDOWN, PLAY, PAUSE\r\n\r\n".data)],
       HandlerOutcome.ok⟩ :=
  ⟨send_response_flat, by decide⟩

/-- C5: one control-reader step on a closed session stops at once with no
receive, no transmit and no state change; and when the control socket is
null or disconnected the step leaves the session closed (tearing it down if
it was not closed already), transmits nothing and stops. -/
theorem C5_control_step_closed (s : RtspSession) (inp : ControlInput) :
    (s.closed = true → control_task_fn s inp = ⟨s, [], true, false⟩)
    ∧ ((inp.socket_valid = false ∨ inp.socket_connected = false) →
        (control_task_fn s inp).session.closed = true
        ∧ (control_task_fn s inp).outputs = []
        ∧ (control_task_fn s inp).stop = true) := by
  constructor
  · intro h
    simp [control_task_fn, h]
  · intro h
    by_cases hc : s.closed
    · simp [control_task_fn, hc]
    · by_cases hv : inp.socket_valid = false
      · simp [control_task_fn, hc, hv, teardown]
      · rcases h with h | h
        · exact absurd h hv
        · simp [control_task_fn, hc, hv, h, teardown]

/-- C5 witness: a concrete closed session stops unchanged even with pending
bytes, and a concrete disconnected step leaves the session closed. -/
theorem C5_control_step_witness :
    control_task_fn fixClosed ⟨true, true, some (("OPTIONS".data))⟩ =
      ⟨fixClosed, [], true, false⟩
    ∧ (control_task_fn fix1 ⟨true, false, none⟩).session.closed = true :=
  ⟨(C5_control_step_closed fixClosed ⟨true, true, some (("OPTIONS".data))⟩).1 (by decide),
   ((C5_control_step_closed fix1 ⟨true, false, none⟩).2 (Or.inr (by decide))).1⟩

/-- C6 counterexample: a session that is not active (`is_active` false) still
emits a datagram from both `send_rtp_packet` and `send_rtcp_packet`, so the
media send operations do not consult the active flag before emitting. -/
theorem C6_inactive_send_cex :
    is_active fix2 = false
    ∧ send_rtp_packet fix2 ("payload".data) ≠ []
    ∧ send_rtcp_packet fix2 ("payload".data) ≠ [] := by decide

/-- C6 (amended): `send_rtp_packet` and `send_rtcp_packet` emit exactly one
datagram to the recorded client address and port unconditionally — the
result is identical whatever the active flag, so callers must gate on
`is_active()` themselves. -/
theorem C6_send_unconditional (s : RtspSession) (packet : List Char) :
    send_rtp_packet s packet = [⟨s.client_address, toSize s.client_rtp_port, packet⟩]
    ∧ send_rtcp_packet s packet = [⟨s.client_address, toSize s.client_rtcp_port, packet⟩]
    ∧ send_rtp_packet (play s) packet = send_rtp_packet (pause s) packet
    ∧ send_rtp_packet (teardown s) packet = send_rtp_packet s packet
    ∧ send_rtcp_packet (play s) packet = send_rtcp_packet (pause s) packet
    ∧ send_rtcp_packet (teardown s) packet = send_rtcp_packet s packet :=
  ⟨rfl, rfl, rfl, rfl, rfl, rfl⟩

/-- C8: the CSeq parser returns a clean failure when the header is absent, no
`CR` follows it, or the value is empty, and parses a well-formed value; but
on a non-empty non-numeric value it crashes (`std::stoi` throws
`std::invalid_argument`) instead of returning false. -/
theorem C8_cseq_parse_behaviour :
    parse_rtsp_command_sequence ("Transport: RTP/AVP\r\n".data) = CseqResult.fail
    ∧ parse_rtsp_command_sequence ("CSeq: 42".data) = CseqResult.fail
    ∧ parse_rtsp_command_sequence ("CSeq: \r\n".data) = CseqResult.fail
    ∧ parse_rtsp_command_sequence ("CSeq: 42\r\n".data) = CseqResult.ok 42
    ∧ parse_rtsp_command_sequence ("CSeq: abc\r\n\r\n".data) = CseqResult.crash := by decide

/-- C9: on a SETUP body with a CR-terminated Transport header but no
`client_port=`, the `find` result `npos` wraps under `size_t` arithmetic,
the code slices a garbage substring and `std::stoi` throws: the parse
crashes rather than failing cleanly (the session is left unchanged only
because the exception aborts the handler). -/
theorem C9_setup_parse_crash :
    parse_rtsp_setup_request ("CSeq: 3\r\nTransport: RTP/AVP;unicast\r\n\r\n".data) =
      SetupResult.crash
    ∧ handle_rtsp_setup fix1 ("CSeq: 3\r\nTransport: RTP/AVP;unicast\r\n\r\n".data) =
      ⟨fix1, [], HandlerOutcome.crash⟩
    ∧ findSubFrom ("CSeq: 3\r\nTransport: RTP/AVP;unicast\r\n\r\n".data)
        ("client_port=".data) 0 = npos := by decide

/-- C10: `play()` sets the active flag unconditionally and `teardown()` does
not latch it off: after `teardown()` then `play()` — or a PLAY request
handled on a closed session — `is_closed()` and `is_active()` are both
true. -/
theorem C10_closed_and_active (s : RtspSession) :
    is_closed (play (teardown s)) = true
    ∧ is_active (play (teardown s)) = true
    ∧ is_closed ((handle_rtsp_play (teardown s) ("CSeq: 4\r\n\r\n".data)).session) = true
    ∧ is_active ((handle_rtsp_play (teardown s) ("CSeq: 4\r\n\r\n".data)).session) = true :=
  ⟨rfl, rfl, rfl, rfl⟩

/-- C1 counterexample: the value `-1` parses as a CSeq (`std::stoi` accepts a
sign), but it coincides with the no-CSeq sentinel of `send_response`, so the
200 OK answering this SETUP carries no CSeq header at all. -/
theorem C1_cseq_sentinel_cex :
    parse_rtsp_setup_request
        ("CSeq: -1\r\nTransport: RTP/AVP;unicast;client_port=5000-5001\r\n\r\n".data) =
      SetupResult.parsed 5000 5001
    ∧ parse_rtsp_command_sequence
        ("CSeq: -1\r\nTransport: RTP/AVP;unicast;client_port=5000-5001\r\n\r\n".data) =
      CseqResult.ok (-1)
    ∧ handle_rtsp_setup fix1
        ("CSeq: -1\r\nTransport: RTP/AVP;unicast;client_port=5000-5001\r\n\r\n".data) =
      ⟨fix2,
       [("RTSP/1.0 200 OK\r\nSession: 1234\r\nTransport: RTP/AVP;unicast;client_port=5000-5001\r\n\r\n".data)],
       HandlerOutcome.ok⟩
    ∧ hasSub
        ("RTSP/1.0 200 OK\r\nSession: 1234\r\nTransport: RTP/AVP;unicast;client_port=5000-5001\r\n\r\n".data)
        ("CSeq".data) = false := by decide

/-- C1 (amended): a SETUP whose transport parses to ports `rtp`-`rtcp` and
whose CSeq parses to `n ≠ -1` records both ports on the session and answers
exactly `200 OK` with `CSeq: n`, `Session:` equal to `get_session_id()`, and
a `Transport` header echoing the parsed client ports (when `n = -1` the CSeq
header is suppressed by the sentinel, as the counterexample shows). -/
theorem C1_setup_records_and_echoes (s : RtspSession) (request : List Char)
    (rtp rtcp n : Int)
    (hs : parse_rtsp_setup_request request = SetupResult.parsed rtp rtcp)
    (hc : parse_rtsp_command_sequence request = CseqResult.ok n)
    (hn : n ≠ -1) :
    handle_rtsp_setup s request =
      ⟨{ s with client_rtp_port := rtp, client_rtcp_port := rtcp },
       [("RTSP/1.0 200 OK\r\nCSeq: ".data) ++ intToChars n
        ++ ("\r\nSession: ".data) ++ natToChars (get_session_id s)
        ++ ("\r\nTransport: RTP/AVP;unicast;client_port=".data) ++ intToChars rtp
        ++ ("-".data) ++ intToChars rtcp ++ ("\r\n\r\n".data)],
       HandlerOutcome.ok⟩ := by
  simp only [handle_rtsp_setup, hs, hc, send_response_flat, if_neg hn, get_session_id]
  simp only [List.append_assoc]
  rfl

/-- C1 witness: the spec's own SETUP example, evaluated end to end. -/
theorem C1_setup_witness :
    handle_rtsp_setup fix1
        ("CSeq: 3\r\nTransport: RTP/AVP;unicast;client_port=5000-5001\r\n\r\n".data) =
      ⟨fix2,
       [("RTSP/1.0 200 OK\r\nCSeq: 3\r\nSession: 1234\r\nTransport: RTP/AVP;unicast;client_port=5000-5001\r\n\r\n".data)],
       HandlerOutcome.ok⟩ := by
  have h := C1_setup_records_and_echoes fix1
    (("CSeq: 3\r\nTransport: RTP/AVP;unicast;client_port=5000-5001\r\n\r\n".data))
    5000 5001 3 (by decide) (by decide) (by decide)
  exact h.trans (by decide)

set_option maxRecDepth 16000 in
/-- C2 counterexample: the DESCRIBE body generated by the code consists of
twelve CRLF-terminated SDP lines, not thirteen (the response itself is
evaluated in full on a concrete session). -/
theorem C2_sdp_line_count_cex :
    handle_rtsp_describe fix1 ("CSeq: 2\r\n\r\n".data) =
      ⟨fix1,
       [("RTSP/1.0 200 OK\r\nCSeq: 2\r\nContent-Type: application/sdp\r\nContent-Base: rtsp://10.0.0.1/mjpeg/1\r\nContent-Length: 245\r\n\r\nv=0\r\no=- 1234 1 IN IP4 10.0.0.1\r\ns=MJPEG Stream\r\ni=MJPEG Stream\r\nt=0 0\r\na=control:rtsp://10.0.0.1/mjpeg/1\r\na=mimetype:string;\"video/x-motion-jpeg\"\r\nm=video 0 RTP/AVP 26\r\nc=IN IP4 0.0.0.0\r\nb=AS:256\r\na=control:rtsp://10.0.0.1/mjpeg/1\r\na=udp-only\r\n".data)],
       HandlerOutcome.ok⟩
    ∧ countSub (sdp_body fix1) ("\r\n".data) = 12
    ∧ ¬ countSub (sdp_body fix1) ("\r\n".data) = 13 := by decide

set_option maxRecDepth 16000 in
set_option maxHeartbeats 2000000 in
/-- C2 (amended): every DESCRIBE whose CSeq parses is answered 200 OK with
Content-Type `application/sdp`, Content-Base equal to the rtsp:// URL,
Content-Length equal to the byte length of the body, and the body is exactly
the twelve CRLF-terminated SDP lines of the spec. -/
theorem C2_describe_response (s : RtspSession) (request : List Char) (n : Int)
    (hc : parse_rtsp_command_sequence request = CseqResult.ok n) :
    handle_rtsp_describe s request =
      ⟨s, [("RTSP/1.0 200 OK\r\n".data)
           ++ (if n = -1 then [] else ("CSeq: ".data) ++ intToChars n ++ ("\r\n".data))
           ++ ("Content-Type: application/sdp\r\nContent-Base: ".data) ++ rtsp_url s
           ++ ("\r\nContent-Length: ".data) ++ natToChars (sdp_body s).length
           ++ ("\r\n\r\n".data) ++ sdp_body s], HandlerOutcome.ok⟩
    ∧ sdp_body s =
        ("v=0\r\n".data)
        ++ (("o=- ".data) ++ natToChars (get_session_id s) ++ (" 1 IN IP4 ".data)
            ++ s.server_address ++ ("\r\n".data))
        ++ ("s=MJPEG Stream\r\n".data)
        ++ ("i=MJPEG Stream\r\n".data)
        ++ ("t=0 0\r\n".data)
        ++ (("a=control:".data) ++ rtsp_url s ++ ("\r\n".data))
        ++ ("a=mimetype:string;\"video/x-motion-jpeg\"\r\n".data)
        ++ ("m=video 0 RTP/AVP 26\r\n".data)
        ++ ("c=IN IP4 0.0.0.0\r\n".data)
        ++ ("b=AS:256\r\n".data)
        ++ (("a=control:".data) ++ rtsp_url s ++ ("\r\n".data))
        ++ ("a=udp-only\r\n".data)
    ∧ rtsp_url s = ("rtsp://".data) ++ s.server_address ++ ("/".data) ++ s.rtsp_path := by
  refine ⟨?_, ?_, rfl⟩
  · have hb : sdp_body s ≠ [] := List.cons_ne_nil _ _
    simp only [handle_rtsp_describe, hc, send_response_flat, describe_headers, if_neg hb]
    simp only [List.append_assoc]
    rfl
  · simp only [sdp_body, get_session_id]
    simp only [List.append_assoc]

/-- C2 witness: a concrete DESCRIBE succeeds and leaves the session
unchanged. -/
theorem C2_describe_witness :
    (handle_rtsp_describe fix1 ("CSeq: 2\r\n\r\n".data)).outcome = HandlerOutcome.ok
    ∧ (handle_rtsp_describe fix1 ("CSeq: 2\r\n\r\n".data)).session = fix1 := by
  have h := C2_describe_response fix1 ("CSeq: 2\r\n\r\n".data) 2 (by decide)
  rw [h.1]
  exact ⟨rfl, rfl⟩

/-- C4 counterexample: a SETUP body whose Transport header value (exactly as
the code extracts it) contains `RTP/AVP/TCP`, yet the parse fails on the
earlier empty-path check (the body's first two spaces are adjacent) and the
session sends no response at all — no 461 is emitted. -/
theorem C4_tcp_no_response_cex :
    findSubFrom ("CSeq:  3\r\nTransport: RTP/AVP/TCP;unicast\r\n\r\n".data)
      ("Transport: ".data) 0 = 10
    ∧ findCharFrom ("CSeq:  3\r\nTransport: RTP/AVP/TCP;unicast\r\n\r\n".data) '\r' 10 = 40
    ∧ cppSubstr ("CSeq:  3\r\nTransport: RTP/AVP/TCP;unicast\r\n\r\n".data) (add32 10 11)
        (sub32 (sub32 40 10) 11) = some ("RTP/AVP/TCP;unicast".data)
    ∧ hasSub ("RTP/AVP/TCP;unicast".data) ("RTP/AVP/TCP".data) = true
    ∧ parse_rtsp_setup_request ("CSeq:  3\r\nTransport: RTP/AVP/TCP;unicast\r\n\r\n".data) =
        SetupResult.failed
    ∧ handle_rtsp_setup fix1 ("CSeq:  3\r\nTransport: RTP/AVP/TCP;unicast\r\n\r\n".data) =
        ⟨fix1, [], HandlerOutcome.err⟩ := by decide

/-- C4 (amended): provided the rtsp-path field parsed from the body is
non-empty (the counterexample shows the rejection is skipped otherwise), a
SETUP whose Transport header value contains `RTP/AVP/TCP` is rejected: the
session transmits exactly `461 Unsupported Transport` with no CSeq header,
records no ports and changes no flags. -/
theorem C4_tcp_rejected (s : RtspSession) (request p tv : List Char) (ti te : Nat)
    (hp : parse_rtsp_path request = some p) (hpne : p ≠ [])
    (hti : findSubFrom request ("Transport: ".data) 0 = ti) (htin : ti ≠ npos)
    (hte : findCharFrom request '\r' ti = te) (hten : te ≠ npos)
    (htv : cppSubstr request (add32 ti 11) (sub32 (sub32 te ti) 11) = some tv)
    (htcp : findSubFrom tv ("RTP/AVP/TCP".data) 0 ≠ npos) :
    parse_rtsp_setup_request request = SetupResult.rejectedTcp
    ∧ handle_rtsp_setup s request =
        ⟨s, [("RTSP/1.0 461 Unsupported Transport\r\n\r\n".data)], HandlerOutcome.err⟩
    ∧ hasSub ("RTSP/1.0 461 Unsupported Transport\r\n\r\n".data) ("CSeq".data) = false := by
  have htvne : tv ≠ [] := by
    intro h0
    rw [h0] at htcp
    exact htcp rfl
  have h1 : parse_rtsp_setup_request request = SetupResult.rejectedTcp := by
    simp only [parse_rtsp_setup_request, hp, hti, hte, htv]
    simp only [if_neg hpne, if_neg htin, if_neg hten, if_neg htvne, if_pos htcp]
  refine ⟨h1, ?_, by decide⟩
  have hstep : handle_rtsp_setup s request =
      ⟨s, [send_response 461 (("Unsupported Transport".data)) (-1) [] []],
       HandlerOutcome.err⟩ := by
    simp only [handle_rtsp_setup, h1]
  rw [hstep, resp461_eval]

/-- C4 witness: the spec's TCP-interleaved SETUP example, rejected with a
bare 461. -/
theorem C4_tcp_witness :
    handle_rtsp_setup fix1
        ("CSeq: 3\r\nTransport: RTP/AVP/TCP;unicast;interleaved=0-1\r\n\r\n".data) =
      ⟨fix1, [("RTSP/1.0 461 Unsupported Transport\r\n\r\n".data)], HandlerOutcome.err⟩ := by
  have h := C4_tcp_rejected fix1
    (("CSeq: 3\r\nTransport: RTP/AVP/TCP;unicast;interleaved=0-1\r\n\r\n".data))
    (("3\r\nTransport:".data)) (("RTP/AVP/TCP;unicast;interleaved=0-1".data)) 9 55
    (by decide) (by decide) (by decide) (by decide) (by decide) (by decide) (by decide)
    (by decide)
  exact h.2.1

/-- C7 counterexample: a buffer whose request line is malformed (only one
space) but which contains a parseable `CSeq: 2` elsewhere is answered 400
Bad Request **with** the CSeq echoed, contradicting the no-CSeq claim. -/
theorem C7_cseq_echo_cex :
    findCharFrom ("OPTIONS\r\nCSeq: 2\r\n\r\n".data) ' '
        (add32 (findCharFrom ("OPTIONS\r\nCSeq: 2\r\n\r\n".data) ' ' 0) 1) = npos
    ∧ handle_rtsp_request fix1 ("OPTIONS\r\nCSeq: 2\r\n\r\n".data) =
        ⟨fix1, [("RTSP/1.0 400 Bad Request\r\nCSeq: 2\r\n\r\n".data)], HandlerOutcome.ok⟩
    ∧ hasSub ("RTSP/1.0 400 Bad Request\r\nCSeq: 2\r\n\r\n".data) ("CSeq: ".data) = true := by
  decide

/-- C7 (amended): a request whose first line is malformed (a missing first or
second space, or no `CR` in the buffer, bounded by the 1024-byte receive) is
handed to `handle_rtsp_invalid_request`, which re-parses the CSeq from the
whole buffer, and the session fields are unchanged (still open) in every
case.  The four possible CSeq parse outcomes are each covered: a clean parse
failure — always the case when the buffer has no `CR` — is answered 400 Bad
Request with no CSeq header; a CSeq parsing to `n ≠ -1` is echoed in the 400
response; a CSeq parsing to the sentinel `-1` yields the 400 without a CSeq
header; and a non-empty non-numeric CSeq value makes `std::stoi` throw, so
no response is sent at all. -/
theorem C7_malformed_line_400 (s : RtspSession) (buf : List Char)
    (hmal : findCharFrom buf ' ' 0 = npos
      ∨ findCharFrom buf ' ' (add32 (findCharFrom buf ' ' 0) 1) = npos
      ∨ findCharFrom buf '\r' 0 = npos) :
    handle_rtsp_request s buf = handle_rtsp_invalid_request s buf
    ∧ (parse_rtsp_command_sequence buf = CseqResult.fail →
        handle_rtsp_request s buf =
          ⟨s, [("RTSP/1.0 400 Bad Request\r\n\r\n".data)], HandlerOutcome.ok⟩)
    ∧ (∀ n : Int, n ≠ -1 → parse_rtsp_command_sequence buf = CseqResult.ok n →
        handle_rtsp_request s buf =
          ⟨s, [("RTSP/1.0 400 Bad Request\r\nCSeq: ".data) ++ intToChars n
               ++ ("\r\n\r\n".data)], HandlerOutcome.ok⟩)
    ∧ (parse_rtsp_command_sequence buf = CseqResult.ok (-1) →
        handle_rtsp_request s buf =
          ⟨s, [("RTSP/1.0 400 Bad Request\r\n\r\n".data)], HandlerOutcome.ok⟩)
    ∧ (parse_rtsp_command_sequence buf = CseqResult.crash →
        handle_rtsp_request s buf = ⟨s, [], HandlerOutcome.crash⟩)
    ∧ (buf.length ≤ 1024 → findCharFrom buf '\r' 0 = npos →
        parse_rtsp_command_sequence buf = CseqResult.fail)
    ∧ hasSub ("RTSP/1.0 400 Bad Request\r\n\r\n".data) ("CSeq".data) = false := by
  have h1 : handle_rtsp_request s buf = handle_rtsp_invalid_request s buf := by
    simp only [handle_rtsp_request]
    rw [if_pos hmal]
  refine ⟨h1, ?_, ?_, ?_, ?_, ?_, by decide⟩
  · intro hf
    rw [h1]
    have hstep : handle_rtsp_invalid_request s buf =
        ⟨s, [send_response 400 (("Bad Request".data)) (-1) [] []], HandlerOutcome.ok⟩ := by
      simp only [handle_rtsp_invalid_request, hf]
    rw [hstep, resp400_eval]
  · intro n hn hok
    rw [h1]
    simp only [handle_rtsp_invalid_request, hok, send_response_flat, if_neg hn]
    simp only [List.append_assoc]
    rfl
  · intro hok
    rw [h1]
    have hstep : handle_rtsp_invalid_request s buf =
        ⟨s, [send_response 400 (("Bad Request".data)) (-1) [] []], HandlerOutcome.ok⟩ := by
      simp only [handle_rtsp_invalid_request, hok]
    rw [hstep, resp400_eval]
  · intro hcrash
    rw [h1]
    simp only [handle_rtsp_invalid_request, hcrash]
  · intro hlen hcr
    have hnom : '\r' ∉ buf := no_cr_of_find_npos buf hlen hcr
    simp only [parse_rtsp_command_sequence]
    by_cases hci : findSubFrom buf ("CSeq: ".data) 0 = npos
    · rw [if_pos hci]
    · rw [if_neg hci, findCharFrom_npos_of_not_mem buf '\r' _ hnom, if_pos rfl]

/-- C7 witness: a buffer with no space and no CR at all gets the bare 400; a
malformed line whose CSeq parses to the sentinel `-1` also gets the bare
400; and a malformed line with a non-numeric CSeq value crashes with no
response. -/
theorem C7_malformed_witness :
    handle_rtsp_request fix1 ("BADREQUEST".data) =
      ⟨fix1, [("RTSP/1.0 400 Bad Request\r\n\r\n".data)], HandlerOutcome.ok⟩
    ∧ handle_rtsp_request fix1 ("OPTIONS\r\nCSeq: -1\r\n\r\n".data) =
      ⟨fix1, [("RTSP/1.0 400 Bad Request\r\n\r\n".data)], HandlerOutcome.ok⟩
    ∧ handle_rtsp_request fix1 ("OPTIONS\r\nCSeq: abc\r\n\r\n".data) =
      ⟨fix1, [], HandlerOutcome.crash⟩ := by
  refine ⟨?_, ?_, ?_⟩
  · have h := C7_malformed_line_400 fix1 ("BADREQUEST".data) (Or.inl (by decide))
    exact h.2.1 (by decide)
  · have h := C7_malformed_line_400 fix1 ("OPTIONS\r\nCSeq: -1\r\n\r\n".data)
      (Or.inr (Or.inl (by decide)))
    exact h.2.2.2.1 (by decide)
  · have h := C7_malformed_line_400 fix1 ("OPTIONS\r\nCSeq: abc\r\n\r\n".data)
      (Or.inr (Or.inl (by decide)))
    exact h.2.2.2.2.1 (by decide)

end EsppRtsp
